import Mathlib

/-!
Verification development for the fantasy-adventure-quest game engine
(src/game.py).  The engine drives an LLM chat API: it keeps a
`PlayerState` and a conversation history, asks the model for JSON
"scenes", applies the chosen effect to the state, and recovers when the
model's output is malformed.

Embedding conventions:
* Python's unbounded `int` is `Int`; the step counter (only ever
  incremented from 0) is `Nat`.
* A decoded JSON value is the inductive `Json`.  The composite
  "raw model text -> strip code fences -> `extract_json` -> `json.loads`"
  pipeline of `get_next_scene` is abstracted by its result: one
  generator response is either a transport/API exception
  (`GenResult.err`) or a payload together with the result of that
  decode pipeline (`GenResult.raw (some j)` when the payload decodes to
  `j`, `GenResult.raw none` when `json.loads` raises
  `json.JSONDecodeError`).  We do not re-verify the Python `json`
  library.
* The LLM client is an oracle `Gen` mapping the message list passed to
  `chat.completions.create` and a call counter to a response; every
  modelled call passes the current history and advances the counter, so
  "number of attempts" is visible as the counter delta.
* Python exceptions that the engine does not catch are modelled as
  `Except.error`; exceptions it catches are handled inside the
  corresponding definition, exactly where the `try/except` sits in the
  source.  (In CPython an escaping exception leaves the in-place
  mutations behind; no claim observes state after an escaped exception,
  so the error value carries none.)
* Message contents (f-strings, `json.dumps`) are modelled by concrete
  executable serializers.  No claim inspects these strings; they exist
  so that the history the oracle receives is a faithful value.
* JSON objects are assumed not to carry duplicate keys (decoded JSON
  from `json.loads` collapses them); association-list lookup models
  Python dict lookup.
-/

namespace AdventureQuest

/-- Decoded JSON values, the result of `json.loads` on a model payload. -/
inductive Json where
  | null
  | bool (b : Bool)
  | num (n : Int)
  | str (s : String)
  | arr (elems : List Json)
  | obj (fields : List (String × Json))
deriving BEq

/-- One entry of `conversation_history`: `{"role": ..., "content": ...}`. -/
structure Msg where
  role : String
  content : String
deriving DecidableEq

/-- src/game.py lines 34-43: the `PlayerState` dataclass. -/
structure PlayerState where
  health : Int
  gold : Int
  inventory : List String
  step : Nat
deriving DecidableEq

/-- The engine state owned by `AdventureGame`: the player and the
conversation history (src/game.py lines 373-374). -/
structure GameState where
  player : PlayerState
  conversation_history : List Msg
deriving DecidableEq

/-- One response of the LLM client: either a raised transport/API
exception, or a payload abstracted by its decode result (`some j` when
`extract_json` + `json.loads` yields `j`, `none` on decode failure). -/
inductive GenResult where
  | err (msg : String)
  | raw (decoded : Option Json)

/-- The LLM client as an oracle over the message list sent to
`chat.completions.create` and a global call counter. -/
abbrev Gen := List Msg → Nat → GenResult

/-- Python exceptions that escape the engine uncaught. -/
inductive PyExc where
  | keyError (msg : String)
  | typeError (msg : String)
  | indexError (msg : String)
  | attributeError (msg : String)
  | apiError (msg : String)
deriving DecidableEq

/-- src/game.py line 375: `self.MAX_STEPS = 5`. -/
def MAX_STEPS : Nat := 5

/-- src/game.py line 515: `MAX_RETRIES = 3` inside `process_scene`. -/
def MAX_RETRIES : Nat := 3

/-- Python dict lookup on a (duplicate-free) association list. -/
def lookup : List (String × Json) → String → Option Json
  | [], _ => none
  | (k, v) :: rest, key => if k = key then some v else lookup rest key

/-- Substring test on character lists (helper for Python `in` on str). -/
def listInfix (needle : List Char) : List Char → Bool
  | [] => needle.isEmpty
  | c :: t => needle.isPrefixOf (c :: t) || listInfix needle t

/-- Python `needle in hay` for strings. -/
def strContains (hay needle : String) : Bool :=
  listInfix needle.toList hay.toList

/-- Python `key in container` for a decoded-JSON container.  Membership
in a dict tests keys, in a list tests elements, in a str tests
substrings; on a non-container it raises `TypeError`. -/
def pyContains (container : Json) (key : String) : Except PyExc Bool :=
  match container with
  | .obj fields => .ok (fields.any (fun kv => kv.1 == key))
  | .arr elems => .ok (elems.any (fun e => e == Json.str key))
  | .str s => .ok (strContains s key)
  | _ => .error (.typeError "argument is not iterable")

/-- Python `container[key]` with a string key.  Indexing a list or a str
with a str raises `TypeError`; a dict raises `KeyError` when absent. -/
def pyIndexStr (container : Json) (key : String) : Except PyExc Json :=
  match container with
  | .obj fields =>
    match lookup fields key with
    | some v => .ok v
    | none => .error (.keyError key)
  | .arr _ => .error (.typeError "list indices must be integers")
  | .str _ => .error (.typeError "string indices must be integers")
  | _ => .error (.typeError "object is not subscriptable")

/-- Python `container[i]` with an int index: list/str indexing with
negative-index wraparound and `IndexError` out of range; a dict with
str keys raises `KeyError`; other values raise `TypeError`. -/
def pyIndexInt (container : Json) (i : Int) : Except PyExc Json :=
  match container with
  | .arr xs =>
    let n : Int := xs.length
    let j := if i < 0 then i + n else i
    if 0 ≤ j ∧ j < n then .ok (xs.getD j.toNat .null)
    else .error (.indexError "list index out of range")
  | .str s =>
    let cs := s.toList
    let n : Int := cs.length
    let j := if i < 0 then i + n else i
    if 0 ≤ j ∧ j < n then .ok (.str (String.mk [cs.getD j.toNat ' ']))
    else .error (.indexError "string index out of range")
  | .obj _ => .error (.keyError (toString i))
  | _ => .error (.typeError "object is not subscriptable")

/-- Python `d.get(key, defaultVal)`: only dicts have `.get`; any other
value raises `AttributeError`. -/
def pyDictGet (d : Json) (key : String) (defaultVal : Json) : Except PyExc Json :=
  match d with
  | .obj fields => .ok ((lookup fields key).getD defaultVal)
  | _ => .error (.attributeError "object has no attribute get")

/-- Value added by `self.player.health += v` (resp. gold).  Python bools
are ints (`True` adds 1); any non-int right operand raises `TypeError`
at the `+=`. -/
def asIntDelta (v : Json) : Except PyExc Int :=
  match v with
  | .num n => .ok n
  | .bool b => .ok (if b then 1 else 0)
  | _ => .error (.typeError "unsupported operand type for +=")

/-- Items consumed by `self.player.inventory.extend(v)`.  A JSON array
of strings extends with those strings; a str iterates its characters; a
dict iterates its keys; non-iterables raise `TypeError`.  (CPython would
also accept arrays with non-string elements and only fail later when the
inventory is joined for display; since the modelled inventory holds item
names, we surface that deferred failure here.  No claim reaches this
corner.) -/
def asItemList (v : Json) : Except PyExc (List String) :=
  match v with
  | .arr elems =>
    elems.mapM (fun e =>
      match e with
      | .str s => Except.ok s
      | _ => Except.error (PyExc.typeError "inventory item is not a string"))
  | .str s => .ok (s.toList.map (fun c => String.mk [c]))
  | .obj fields => .ok (fields.map (fun kv => kv.1))
  | _ => .error (.typeError "object is not iterable")

-- Python repr() of a decoded-JSON value, used for elements inside
-- str() of containers.  Exact text is immaterial to every claim.
mutual
def pyRepr : Json → String
  | .null => "None"
  | .bool b => if b then "True" else "False"
  | .num n => toString n
  | .str s => "\x27" ++ s ++ "\x27"
  | .arr xs => "[" ++ String.intercalate ", " (pyReprList xs) ++ "]"
  | .obj fs => "\x7b" ++ String.intercalate ", " (pyReprFields fs) ++ "\x7d"
def pyReprList : List Json → List String
  | [] => []
  | x :: xs => pyRepr x :: pyReprList xs
def pyReprFields : List (String × Json) → List String
  | [] => []
  | (k, v) :: xs => ("\x27" ++ k ++ "\x27: " ++ pyRepr v) :: pyReprFields xs
end

/-- Python str() of a decoded-JSON value (as interpolated by f-strings). -/
def pyStr : Json → String
  | .str s => s
  | j => pyRepr j

-- Python `json.dumps` on a decoded value (src/game.py line 470).
-- Exact text is immaterial to every claim; the history entry merely
-- records the applied scene.
mutual
def dumps : Json → String
  | .null => "null"
  | .bool b => if b then "true" else "false"
  | .num n => toString n
  | .str s => "\"" ++ s ++ "\""
  | .arr xs => "[" ++ String.intercalate ", " (dumpsList xs) ++ "]"
  | .obj fs => "\x7b" ++ String.intercalate ", " (dumpsFields fs) ++ "\x7d"
def dumpsList : List Json → List String
  | [] => []
  | x :: xs => dumps x :: dumpsList xs
def dumpsFields : List (String × Json) → List String
  | [] => []
  | (k, v) :: xs => ("\"" ++ k ++ "\": " ++ dumps v) :: dumpsFields xs
end

/-- Python str() of a list of strings (inventory display inside
`to_dict`). -/
def pyStrList (xs : List String) : String :=
  "[" ++ String.intercalate ", " (xs.map (fun s => "\x27" ++ s ++ "\x27")) ++ "]"

/-- Python str() of `PlayerState.to_dict()` (src/game.py lines 45-51),
as interpolated into prompt text. -/
def to_dict_str (p : PlayerState) : String :=
  "\x7b\x27health\x27: " ++ toString p.health ++ ", \x27gold\x27: " ++ toString p.gold ++
    ", \x27inventory\x27: " ++ pyStrList p.inventory ++ ", \x27step\x27: " ++ toString p.step ++ "\x7d"

/-- src/game.py lines 432-436: the `make_choice` early-exit message for a
finished journey. -/
def epic_conclusion_message : String :=
  "Your epic journey has reached its conclusion...\n\nAs you reflect on your adventures, you realize how far you\x27ve come."

/-- src/game.py lines 456-461: the in-fiction message built in the
`except KeyError` handler of `make_choice`; `note` is `str(e)` for the
caught `KeyError`, which CPython renders as the quoted argument. -/
def mysterious_force_message (note : String) : String :=
  "A mysterious force disrupts your adventure...\n\nThe ancient scrolls seem to have become illegible, but your journey was still a memorable one!\n\nTechnical note: \x27" ++ note ++ "\x27"

/-- src/game.py line 428: message used when any exception escapes the
generation path inside `get_next_scene`. -/
def unexpected_error_message : String :=
  "An unexpected error occurred. The adventure ends here."

/-- src/game.py line 307: the death message forced by the GUI turn loop. -/
def death_message : String :=
  "You have perished in your quest!"

/-- src/game.py lines 478 and 485: `Final Stats` block appended to every
premature ending, with "None" for an empty inventory. -/
def final_stats_str (p : PlayerState) : String :=
  "Final Stats:\nHealth: " ++ toString p.health ++ "\nGold: " ++ toString p.gold ++
    "\nInventory: " ++ (if p.inventory = [] then "None" else String.intercalate ", " p.inventory)

/-- src/game.py lines 477-489: the Scene built by `end_game` when a
`game_over_message` is supplied (premature endings: death, errors). -/
def end_game_scene (p : PlayerState) (game_over_message : String) : Json :=
  .obj [("story", .str (game_over_message ++ "\n\n" ++ final_stats_str p)),
        ("choices", .arr []),
        ("effects", .obj [])]

/-- src/game.py lines 502-512: the local default ending used when the
model-narrated ending raises. -/
def default_ending_scene (p : PlayerState) : Json :=
  .obj [("story", .str ("Your adventure comes to an end...\n\n" ++ final_stats_str p)),
        ("choices", .arr []),
        ("effects", .obj [])]

/-- src/game.py lines 532-548: the story text of the fallback Scene in
`process_scene`.  The source writes it as a plain (non-f) triple-quoted
string, so the text below is a constant: the `\x7b...\x7d` placeholders
are literal characters, not interpolated player stats. -/
def fallback_story : String :=
  "\n🤖 EMERGENCY STORY CONCLUSION PROTOCOL ACTIVATED! 🤖\n\nSuddenly, a wild developer appears!\n\x27Oh no! The story matrix has become corrupted!\x27 they exclaim.\n\x27But fear not, for your adventure was automatically backed up to the cloud!\x27\n\nYour character went on to become a successful cloud storage salesperson, \nteaching other adventurers about the importance of data backup.\n\nTHE END (brought to you by Technical Difficulties™)\n\nFinal Stats:\nHealth: \x7bself.player.health\x7d\nGold: \x7bself.player.gold\x7d\nInventory: \x7b\x27, \x27.join(self.player.inventory) if self.player.inventory else \x27None\x27\x7d\n                    "

/-- src/game.py lines 531-551: the deterministic fallback terminal Scene
returned by `process_scene` once retries are exhausted. -/
def fallback_scene : Json :=
  .obj [("story", .str fallback_story),
        ("choices", .arr []),
        ("effects", .obj [])]

/-- src/game.py lines 394-399: `add_to_history` appends a message and,
past 10 entries, keeps `[history[0]] + history[-9:]`. -/
def add_to_history (hist : List Msg) (role content : String) : List Msg :=
  let h := hist ++ [⟨role, content⟩]
  if h.length > 10 then h.take 1 ++ h.drop (h.length - 9) else h

/-- Recursion core of `process_scene`, structural on the number of
retries still allowed (`MAX_RETRIES - retries`; the source counts
`retries` upward, see `process_scene` below).  On a decoded payload the
scene data is returned as-is; on a decode failure with retries left the
client is called again on the same history; a transport exception from
that call escapes (`.error`); with retries exhausted the fallback
terminal Scene is returned. -/
def process_scene_go (hist : List Msg) (g : Gen) :
    Option Json → Nat → Nat → Except PyExc Json × Nat
  | some scene_data, _, k => (.ok scene_data, k)
  | none, 0, k => (.ok fallback_scene, k)
  | none, fuel + 1, k =>
    match g hist k with
    | .err m => (.error (.apiError m), k + 1)
    | .raw d => process_scene_go hist g d fuel (k + 1)

/-- src/game.py lines 514-551: `AdventureGame.process_scene`.  Arguments
mirror the source (`scene_text` abstracted by its decode result,
`retries` counting up from 0); `k` is the client call counter.  The
recursion is delegated to `process_scene_go` on the remaining retries so
that it is structurally decreasing; for every `retries`, a recursive
source call with `retries + 1` corresponds to one less unit of fuel, and
`retries >= MAX_RETRIES` corresponds to fuel 0. -/
def process_scene (hist : List Msg) (g : Gen) (scene_text : Option Json)
    (retries : Nat) (k : Nat) : Except PyExc Json × Nat :=
  process_scene_go hist g scene_text (MAX_RETRIES - retries) k

/-- src/game.py lines 476-512: `AdventureGame.end_game`.  With a
`game_over_message` it builds the premature-ending Scene locally (no
client call).  Without one it asks the model to narrate the ending and
feeds the payload to `process_scene`; any exception in that block
(transport error on the first call or on a retry inside `process_scene`)
is caught and replaced by the local default ending. -/
def end_game (st : GameState) (g : Gen) (k : Nat) (game_over_message : Option String) :
    Json × Nat :=
  match game_over_message with
  | some msg => (end_game_scene st.player msg, k)
  | none =>
    match g st.conversation_history k with
    | .err _ => (default_ending_scene st.player, k + 1)
    | .raw d =>
      match process_scene st.conversation_history g d 0 (k + 1) with
      | (.ok scene, kk) => (scene, kk)
      | (.error _, kk) => (default_ending_scene st.player, kk)

/-- src/game.py lines 410-428: `AdventureGame.get_next_scene`.  At the
step limit it delegates to `end_game` (model-narrated ending).
Otherwise it calls the client once and feeds the decode result to
`process_scene`; any exception escaping that block — the initial call
raising, or a retry call inside `process_scene` raising — is caught and
converted to the "unexpected error" terminal Scene (the source calls
`self.end_game(game_over_message=...)`, whose some-message branch is
`end_game_scene`).  Generation never appends to the history. -/
def get_next_scene (st : GameState) (g : Gen) (k : Nat) : Json × Nat :=
  if st.player.step ≥ MAX_STEPS then
    end_game st g k none
  else
    match g st.conversation_history k with
    | .err _ => (end_game_scene st.player unexpected_error_message, k + 1)
    | .raw d =>
      match process_scene st.conversation_history g d 0 (k + 1) with
      | (.ok scene, kk) => (scene, kk)
      | (.error _, kk) => (end_game_scene st.player unexpected_error_message, kk)

/-- src/game.py lines 438-452: the `try` block of `make_choice`.  A
non-dict scene, a missing `"effects"` key, or a failed membership test
for `str(choice_num)` raises `KeyError` (caught by the handler); the
membership test itself and the subsequent indexing raise `TypeError` on
ill-typed `effects` values (not caught). -/
def validateEffects (scene : Json) (choice_num : Int) : Except PyExc Json :=
  match scene with
  | .obj fields =>
    match lookup fields "effects" with
    | none => .error (.keyError "Missing effects")
    | some effectsVal =>
      match pyContains effectsVal (toString choice_num) with
      | .error e => .error e
      | .ok false => .error (.keyError ("Missing choice " ++ toString choice_num))
      | .ok true => pyIndexStr effectsVal (toString choice_num)
  | _ => .error (.keyError "Invalid scene format")

/-- src/game.py line 471: `scene["choices"][choice_num - 1]`.  This sits
after the `try/except`, so its `KeyError` / `IndexError` / `TypeError`
escape `make_choice`. -/
def choiceTextOf (scene : Json) (choice_num : Int) : Except PyExc Json :=
  match scene with
  | .obj fields =>
    match lookup fields "choices" with
    | some cs => pyIndexInt cs (choice_num - 1)
    | none => .error (.keyError "choices")
  | _ => .error (.typeError "object is not subscriptable")

/-- src/game.py lines 430-474: `AdventureGame.make_choice`.  At the step
limit it returns the epic-conclusion ending without touching state.
Otherwise the validation block runs: a caught `KeyError` yields the
mysterious-force terminal Scene (state untouched); an uncaught exception
escapes as `.error`.  On success the effect deltas are applied, the
scene and the textual choice are recorded into the history, and the next
scene is requested.  Returns the delivered Scene, the updated engine
state, and the client call counter. -/
def make_choice (st : GameState) (g : Gen) (k : Nat) (choice_num : Int) (scene : Json) :
    Except PyExc (Json × GameState × Nat) :=
  if st.player.step ≥ MAX_STEPS then
    .ok (end_game_scene st.player epic_conclusion_message, st, k)
  else
    match validateEffects scene choice_num with
    | .error (.keyError m) =>
      .ok (end_game_scene st.player (mysterious_force_message m), st, k)
    | .error e => .error e
    | .ok effects => do
      let dh ← asIntDelta (← pyDictGet effects "health" (.num 0))
      let dg ← asIntDelta (← pyDictGet effects "gold" (.num 0))
      let items ← asItemList (← pyDictGet effects "items" (.arr []))
      let p := st.player
      let p' : PlayerState := ⟨p.health + dh, p.gold + dg, p.inventory ++ items, p.step + 1⟩
      let hist1 := add_to_history st.conversation_history "assistant" (dumps scene)
      let choice_text ← choiceTextOf scene choice_num
      let hist2 := add_to_history hist1 "user"
        ("Choice made: " ++ pyStr choice_text ++ "\nNew player state: " ++ to_dict_str p')
      let st' : GameState := ⟨p', hist2⟩
      let r := get_next_scene st' g k
      pure (r.1, st', r.2)

/-- src/game.py lines 301-310: `AdventureGameGUI.process_choice`, the
turn loop around `make_choice`: if the player's health is `<= 0` after
the choice, the delivered Scene is replaced by the death ending (the
generated scene is discarded). -/
def process_choice (st : GameState) (g : Gen) (k : Nat) (choice_num : Int) (scene : Json) :
    Except PyExc (Json × GameState × Nat) :=
  match make_choice st g k choice_num scene with
  | .error e => .error e
  | .ok (scene', st', k') =>
    if st'.player.health ≤ 0 then
      .ok ((end_game st' g k' (some death_message)).1, st', (end_game st' g k' (some death_message)).2)
    else
      .ok (scene', st', k')

/-- Iterated turns: feed each chosen index together with the previously
delivered Scene back into `make_choice`, as the GUI loop does. -/
def run (g : Gen) : GameState → Nat → Json → List Int → Except PyExc (Json × GameState × Nat)
  | st, k, scene, [] => .ok (scene, st, k)
  | st, k, scene, c :: cs =>
    match make_choice st g k c scene with
    | .error e => .error e
    | .ok (scene', st', k') => run g st' k' scene' cs

/-- Observer: the `choices` list of a Scene, when it has one. -/
def sceneChoices (scene : Json) : Option (List Json) :=
  match scene with
  | .obj fields =>
    match lookup fields "choices" with
    | some (.arr xs) => some xs
    | _ => none
  | _ => none

/-- Observer: the `story` text of a Scene, when it has one. -/
def sceneStory (scene : Json) : Option String :=
  match scene with
  | .obj fields =>
    match lookup fields "story" with
    | some (.str s) => some s
    | _ => none
  | _ => none

/-- Observer: the `effects` mapping of a Scene, when it has one. -/
def sceneEffects (scene : Json) : Option (List (String × Json)) :=
  match scene with
  | .obj fields =>
    match lookup fields "effects" with
    | some (.obj fs) => some fs
    | _ => none
  | _ => none

/-- Bool projection of an `Except`. -/
def exOk {α : Type} : Except PyExc α → Bool
  | .ok _ => true
  | .error _ => false

/-- A scene/index pair is a valid choice: the scene is a well-formed
mapping whose `effects` entry for the index exists, the entry's
`health`/`gold`/`items` fields are well-typed, and the `choices` entry
is indexable at `choice_num - 1`.  Exactly the condition under which
`make_choice` takes its success path. -/
def validStep (scene : Json) (choice_num : Int) : Bool :=
  match validateEffects scene choice_num with
  | .error _ => false
  | .ok effects =>
    exOk (do
      let _ ← asIntDelta (← pyDictGet effects "health" (.num 0))
      let _ ← asIntDelta (← pyDictGet effects "gold" (.num 0))
      let _ ← asItemList (← pyDictGet effects "items" (.arr []))
      let _ ← choiceTextOf scene choice_num
      pure ())

/-- The scene faults that the `except KeyError` handler of `make_choice`
catches: scene not a mapping, `effects` missing, or the membership test
for the index failing without raising. -/
def caught_scene_fault (scene : Json) (choice_num : Int) : Bool :=
  match validateEffects scene choice_num with
  | .error (.keyError _) => true
  | _ => false

/-- Health delta of the chosen effect (`effects.get("health", 0)`),
0 outside the success path. -/
def effHealth (scene : Json) (choice_num : Int) : Int :=
  match validateEffects scene choice_num with
  | .ok effects =>
    match (pyDictGet effects "health" (.num 0)).bind asIntDelta with
    | .ok n => n
    | .error _ => 0
  | .error _ => 0

/-- Gold delta of the chosen effect. -/
def effGold (scene : Json) (choice_num : Int) : Int :=
  match validateEffects scene choice_num with
  | .ok effects =>
    match (pyDictGet effects "gold" (.num 0)).bind asIntDelta with
    | .ok n => n
    | .error _ => 0
  | .error _ => 0

/-- Items appended by the chosen effect. -/
def effItems (scene : Json) (choice_num : Int) : List String :=
  match validateEffects scene choice_num with
  | .ok effects =>
    match (pyDictGet effects "items" (.arr [])).bind asItemList with
    | .ok xs => xs
    | .error _ => []
  | .error _ => []

/-- Text of the chosen choice, `Json.null` outside the success path. -/
def choiceTextD (scene : Json) (choice_num : Int) : Json :=
  match choiceTextOf scene choice_num with
  | .ok j => j
  | .error _ => .null

/-- Engine state after the success path of `make_choice`: effect deltas
applied, step incremented, scene and textual choice recorded. -/
def postChoiceState (st : GameState) (choice_num : Int) (scene : Json) : GameState :=
  let p := st.player
  let p' : PlayerState := ⟨p.health + effHealth scene choice_num,
    p.gold + effGold scene choice_num,
    p.inventory ++ effItems scene choice_num, p.step + 1⟩
  let hist1 := add_to_history st.conversation_history "assistant" (dumps scene)
  let hist2 := add_to_history hist1 "user"
    ("Choice made: " ++ pyStr (choiceTextD scene choice_num) ++ "\nNew player state: " ++ to_dict_str p')
  ⟨p', hist2⟩

/-- A run of choices in which every submitted index is a valid choice
against the Scene delivered for that turn. -/
def validRunB (g : Gen) : GameState → Nat → Json → List Int → Bool
  | _, _, _, [] => true
  | st, k, scene, c :: cs =>
    validStep scene c &&
      match make_choice st g k c scene with
      | .error _ => false
      | .ok (scene', st', k') => validRunB g st' k' scene' cs

/-- None of the (at most 4) generation attempts starting at call index
`k` on history `hist` yields a decodable payload. -/
def noDecodeFrom (g : Gen) (hist : List Msg) (k : Nat) : Prop :=
  ∀ i, i < 4 → ∀ j, g hist (k + i) ≠ .raw (some j)

/-- Recording a whole message sequence through `add_to_history`,
starting from the empty history created at game start. -/
def record_all (msgs : List (String × String)) : List Msg :=
  msgs.foldl (fun h rc => add_to_history h rc.1 rc.2) []

/-- View of a (role, content) pair as a history message. -/
def toMsg (rc : String × String) : Msg := ⟨rc.1, rc.2⟩

/-- Oracle whose every payload fails to decode. -/
def genNone : Gen := fun _ _ => .raw none

/-- Oracle whose every call raises a transport error. -/
def genErr : Gen := fun _ _ => .err "network failure"

/-- Oracle that always returns a decodable payload with no Scene shape. -/
def genEmptyObj : Gen := fun _ _ => .raw (some (.obj []))

/-- Initial engine state: default `PlayerState`, empty history. -/
def st0 : GameState := ⟨⟨100, 0, [], 0⟩, []⟩

/-- A mid-game state with nonempty stats. -/
def stMid : GameState := ⟨⟨55, 9, ["lamp"], 1⟩, []⟩

/-- A state whose stats should be visible in any ending text. -/
def stC3 : GameState := ⟨⟨80, 7, ["rope"], 2⟩, []⟩

/-- A well-formed Scene: choice 1 carries the rope effect of the spec's
worked example, choice 2 an empty effect, choice 3 a lethal effect. -/
def scene_rope : Json :=
  .obj [("story", .str "A cliff looms ahead."),
        ("choices", .arr [.str "Climb down with the rope", .str "Walk around", .str "Jump"]),
        ("effects", .obj [
          ("1", .obj [("health", .num (-20)), ("gold", .num 5), ("items", .arr [.str "rope"])]),
          ("2", .obj []),
          ("3", .obj [("health", .num (-200))])])]

/-- Oracle that always returns `scene_rope` as a decoded payload. -/
def genRope : Gen := fun _ _ => .raw (some scene_rope)

/-- A scene whose `effects` mapping has no entry for any index. -/
def scene_missing_entry : Json :=
  .obj [("story", .str "A fork in the road."),
        ("choices", .arr [.str "Left", .str "Right"]),
        ("effects", .obj [])]

/-- A scene with a usable `effects` entry but no `choices` key. -/
def scene_no_choices : Json :=
  .obj [("effects", .obj [("1", .obj [])])]

/-- Eleven recorded messages, one more than the history window. -/
def msgs11 : List (String × String) :=
  ("system", "prompt") :: List.replicate 10 ("user", "m")

/-! General lemmas about the embedded engine, shared by the claim
theorems below. -/

theorem sceneChoices_end_game_scene (p : PlayerState) (m : String) :
    sceneChoices (end_game_scene p m) = some [] := rfl

theorem sceneChoices_default_ending (p : PlayerState) :
    sceneChoices (default_ending_scene p) = some [] := rfl

theorem sceneChoices_fallback : sceneChoices fallback_scene = some [] := rfl

/-- Success path of `make_choice`: on a valid choice below the step
limit, the effect deltas are applied, the history records the turn, and
the Scene delivered is whatever `get_next_scene` produces from the
updated state. -/
theorem make_choice_valid (st : GameState) (g : Gen) (k : Nat) (c : Int) (scene : Json)
    (hstep : st.player.step < MAX_STEPS) (hv : validStep scene c = true) :
    make_choice st g k c scene =
      .ok ((get_next_scene (postChoiceState st c scene) g k).1, postChoiceState st c scene,
        (get_next_scene (postChoiceState st c scene) g k).2) := by
  simp only [validStep] at hv
  cases hval : validateEffects scene c with
  | error e => rw [hval] at hv; simp at hv
  | ok effects =>
    rw [hval] at hv
    cases hget1 : pyDictGet effects "health" (.num 0) with
    | error e => simp [hget1, exOk, Bind.bind, Except.bind] at hv
    | ok v1 =>
      cases hd1 : asIntDelta v1 with
      | error e => simp [hget1, hd1, exOk, Bind.bind, Except.bind] at hv
      | ok dh =>
        cases hget2 : pyDictGet effects "gold" (.num 0) with
        | error e => simp [hget1, hd1, hget2, exOk, Bind.bind, Except.bind] at hv
        | ok v2 =>
          cases hd2 : asIntDelta v2 with
          | error e => simp [hget1, hd1, hget2, hd2, exOk, Bind.bind, Except.bind] at hv
          | ok dg =>
            cases hget3 : pyDictGet effects "items" (.arr []) with
            | error e => simp [hget1, hd1, hget2, hd2, hget3, exOk, Bind.bind, Except.bind] at hv
            | ok v3 =>
              cases hd3 : asItemList v3 with
              | error e =>
                simp [hget1, hd1, hget2, hd2, hget3, hd3, exOk, Bind.bind, Except.bind] at hv
              | ok items =>
                cases hct : choiceTextOf scene c with
                | error e =>
                  simp [hget1, hd1, hget2, hd2, hget3, hd3, hct, exOk, Bind.bind,
                    Except.bind] at hv
                | ok ct =>
                  simp only [make_choice, if_neg (by omega : ¬ st.player.step ≥ MAX_STEPS),
                    hval, hget1, hd1, hget2, hd2, hget3, hd3, hct,
                    Bind.bind, Except.bind, pure, Except.pure,
                    postChoiceState, effHealth, effGold, effItems, choiceTextD]

/-- A caught scene fault is a `KeyError` raised inside the `try` block. -/
theorem caught_fault_keyError (scene : Json) (c : Int)
    (hfault : caught_scene_fault scene c = true) :
    ∃ m, validateEffects scene c = .error (.keyError m) := by
  unfold caught_scene_fault at hfault
  cases hval : validateEffects scene c with
  | ok e => rw [hval] at hfault; simp at hfault
  | error e =>
    rw [hval] at hfault
    cases e with
    | keyError m => exact ⟨m, rfl⟩
    | typeError m => simp at hfault
    | indexError m => simp at hfault
    | attributeError m => simp at hfault
    | apiError m => simp at hfault

/-- The `except KeyError` handler of `make_choice`: state and counter
are untouched and the mysterious-force Scene is delivered. -/
theorem make_choice_keyError_eq (st : GameState) (g : Gen) (k : Nat) (c : Int) (scene : Json)
    (hstep : ¬ st.player.step ≥ MAX_STEPS) (m : String)
    (hval : validateEffects scene c = .error (.keyError m)) :
    make_choice st g k c scene =
      .ok (end_game_scene st.player (mysterious_force_message m), st, k) := by
  simp only [make_choice, if_neg hstep, hval]

/-- When no generation attempt of the ending path decodes, `end_game`
returns a locally synthesized Scene, which has empty choices. -/
theorem end_game_noDecode (st : GameState) (g : Gen) (k : Nat)
    (h : noDecodeFrom g st.conversation_history k) :
    sceneChoices (end_game st g k none).1 = some [] := by
  have h0 := h 0 (by omega)
  have h1 := h 1 (by omega)
  have h2 := h 2 (by omega)
  have h3 := h 3 (by omega)
  simp only [end_game]
  cases hg0 : g st.conversation_history k with
  | err m => exact sceneChoices_default_ending st.player
  | raw d =>
    cases d with
    | some j => exact absurd hg0 (h0 j)
    | none =>
      simp only [process_scene, MAX_RETRIES, Nat.sub_zero, process_scene_go]
      cases hg1 : g st.conversation_history (k + 1) with
      | err m => exact sceneChoices_default_ending st.player
      | raw d1 =>
        cases d1 with
        | some j => exact absurd hg1 (h1 j)
        | none =>
          simp only [process_scene_go]
          cases hg2 : g st.conversation_history (k + 1 + 1) with
          | err m => exact sceneChoices_default_ending st.player
          | raw d2 =>
            cases d2 with
            | some j => exact absurd hg2 (h2 j)
            | none =>
              simp only [process_scene_go]
              cases hg3 : g st.conversation_history (k + 1 + 1 + 1) with
              | err m => exact sceneChoices_default_ending st.player
              | raw d3 =>
                cases d3 with
                | some j => exact absurd hg3 (h3 j)
                | none => exact sceneChoices_fallback

/-- A run of valid choices ending exactly at the step limit delivers,
on its last turn, the Scene of the `end_game` ending path from the
final engine state. -/
theorem run_valid_to_ending (g : Gen) :
    ∀ (cs : List Int) (c : Int) (st : GameState) (k : Nat) (scene : Json),
    validRunB g st k scene (c :: cs) = true →
    st.player.step + (c :: cs).length = MAX_STEPS →
    ∃ stf kf, run g st k scene (c :: cs) =
        .ok ((end_game stf g kf none).1, stf, (end_game stf g kf none).2) ∧
      stf.player.step = MAX_STEPS := by
  intro cs
  induction cs with
  | nil =>
    intro c st k scene hv hlen
    simp only [validRunB, Bool.and_eq_true] at hv
    simp only [List.length_cons, List.length_nil] at hlen
    have hstep : st.player.step < MAX_STEPS := by omega
    have hmc := make_choice_valid st g k c scene hstep hv.1
    have hpost : (postChoiceState st c scene).player.step = st.player.step + 1 := rfl
    have hgns : get_next_scene (postChoiceState st c scene) g k =
        end_game (postChoiceState st c scene) g k none := by
      simp only [get_next_scene]
      rw [if_pos (by omega)]
    refine ⟨postChoiceState st c scene, k, ?_, by omega⟩
    simp only [run, hmc, hgns]
  | cons c' cs' ih =>
    intro c st k scene hv hlen
    simp only [validRunB, Bool.and_eq_true] at hv
    obtain ⟨hv1, hv2⟩ := hv
    simp only [List.length_cons] at hlen
    have hstep : st.player.step < MAX_STEPS := by omega
    have hmc := make_choice_valid st g k c scene hstep hv1
    rw [hmc] at hv2
    have hrun : run g st k scene (c :: c' :: cs') =
        run g (postChoiceState st c scene) ((get_next_scene (postChoiceState st c scene) g k).2)
          ((get_next_scene (postChoiceState st c scene) g k).1) (c' :: cs') := by
      simp only [run, hmc]
    rw [hrun]
    have hlen' : (postChoiceState st c scene).player.step + (c' :: cs').length = MAX_STEPS := by
      have hpost : (postChoiceState st c scene).player.step = st.player.step + 1 := rfl
      simp only [List.length_cons] at hlen ⊢
      omega
    exact ih c' (postChoiceState st c scene) ((get_next_scene (postChoiceState st c scene) g k).2)
      ((get_next_scene (postChoiceState st c scene) g k).1) hv2 hlen'

/-- Appending through `add_to_history` caps the length at 10. -/
theorem add_to_history_length (hist : List Msg) (r c : String) :
    (add_to_history hist r c).length = min (hist.length + 1) 10 := by
  simp only [add_to_history]
  by_cases hb : (hist ++ [Msg.mk r c]).length > 10
  · rw [if_pos hb]
    simp only [List.length_append, List.length_take, List.length_drop, List.length_cons,
      List.length_nil] at hb ⊢
    omega
  · rw [if_neg hb]
    simp only [List.length_append, List.length_cons, List.length_nil] at hb ⊢
    omega

/-- Appending through `add_to_history` never changes the head entry. -/
theorem add_to_history_head (hist : List Msg) (r c : String) :
    (add_to_history hist r c).head? = (hist ++ [Msg.mk r c]).head? := by
  simp only [add_to_history]
  by_cases hb : (hist ++ [Msg.mk r c]).length > 10
  · rw [if_pos hb]
    cases hist with
    | nil => simp at hb
    | cons a t =>
      simp only [List.cons_append, List.take, List.head?]
  · rw [if_neg hb]

/-- Invariant of the recorded history: its length is the number of
recorded messages capped at 10 and its head is the first message ever
recorded. -/
theorem record_all_spec (msgs : List (String × String)) :
    (record_all msgs).length = min msgs.length 10 ∧
    (record_all msgs).head? = (msgs.map toMsg).head? := by
  induction msgs using List.reverseRecOn with
  | nil => simp [record_all]
  | append_singleton xs x ih =>
    have hrec : record_all (xs ++ [x]) = add_to_history (record_all xs) x.1 x.2 := by
      simp [record_all, List.foldl_append]
    constructor
    · rw [hrec, add_to_history_length, ih.1]
      simp only [List.length_append, List.length_cons, List.length_nil]
      omega
    · rw [hrec, add_to_history_head]
      cases xs with
      | nil => simp [record_all, toMsg]
      | cons a t =>
        cases hr : record_all (a :: t) with
        | nil =>
          have h1 := ih.1
          rw [hr] at h1
          simp only [List.length_nil, List.length_cons] at h1
          omega
        | cons b bs =>
          have hh := ih.2
          rw [hr] at hh
          simp only [List.cons_append, List.head?_cons, List.map_cons] at hh ⊢
          exact hh

/-! Claim theorems. -/

/-- C1 counterexample: the claim as stated is false.  A run of
`MAX_STEPS` valid choices from the initial `PlayerState`, against a
generator whose model-narrated ending decodes to a scene with three
choices, ends with `player.step = MAX_STEPS` but the Scene returned for
the final turn has a non-empty choices list: the ending path returns a
successfully decoded ending as-is, without forcing `choices: []`. -/
theorem valid_run_final_scene_nonempty_choices :
    validRunB genRope st0 0 scene_rope [2, 2, 2, 2, 2] = true ∧
    (run genRope st0 0 scene_rope [2, 2, 2, 2, 2]).map
      (fun r => (sceneChoices r.1, r.2.1.player.step)) =
      .ok (some [.str "Climb down with the rope", .str "Walk around", .str "Jump"], MAX_STEPS) ∧
    some [Json.str "Climb down with the rope", .str "Walk around", .str "Jump"] ≠
      some ([] : List Json) :=
  ⟨rfl, rfl, by simp⟩

/-- C1 (amended): every run applying a sequence of `MAX_STEPS` valid
choices from a step-0 state ends with `player.step` exactly at
`MAX_STEPS`, and the Scene delivered for the final turn is the
`end_game` ending-path Scene, which has an empty choices list whenever
none of the ending-generation attempts yields a decodable payload (a
successfully decoded ending is returned as-is and may carry choices). -/
theorem valid_run_reaches_max_steps (g : Gen) (st : GameState) (k : Nat) (scene : Json)
    (cs : List Int) (hlen : cs.length = MAX_STEPS) (hstart : st.player.step = 0)
    (hv : validRunB g st k scene cs = true) :
    ∃ stf kf, run g st k scene cs =
        .ok ((end_game stf g kf none).1, stf, (end_game stf g kf none).2) ∧
      stf.player.step = MAX_STEPS ∧
      (noDecodeFrom g stf.conversation_history kf →
        sceneChoices (end_game stf g kf none).1 = some []) := by
  cases cs with
  | nil => simp [MAX_STEPS] at hlen
  | cons c cs' =>
    obtain ⟨stf, kf, hrun, hstep⟩ := run_valid_to_ending g cs' c st k scene hv
      (by simp only [List.length_cons] at hlen ⊢; omega)
    exact ⟨stf, kf, hrun, hstep, fun hnd => end_game_noDecode stf g kf hnd⟩

/-- C1 witness: the amended theorem applied to a concrete valid
five-choice run. -/
theorem valid_run_reaches_max_steps_witness :
    ([2, 2, 2, 2, 2] : List Int).length = MAX_STEPS ∧ st0.player.step = 0 ∧
    validRunB genRope st0 0 scene_rope [2, 2, 2, 2, 2] = true ∧
    (∃ stf kf, run genRope st0 0 scene_rope [2, 2, 2, 2, 2] =
        .ok ((end_game stf genRope kf none).1, stf, (end_game stf genRope kf none).2) ∧
      stf.player.step = MAX_STEPS ∧
      (noDecodeFrom genRope stf.conversation_history kf →
        sceneChoices (end_game stf genRope kf none).1 = some [])) :=
  ⟨rfl, rfl, rfl,
    valid_run_reaches_max_steps genRope st0 0 scene_rope [2, 2, 2, 2, 2] rfl rfl rfl⟩

/-- C2: when the initial attempt and all three retries yield payloads
that fail to decode, `get_next_scene` consults the generator exactly 4
times (counter `k + 4`), every call passing the same unmodified
conversation history `st.conversation_history` (nothing is appended and
no corrective feedback exists), and returns the deterministic fallback
terminal Scene; the function is total, so nothing is raised past this
boundary. -/
theorem get_next_scene_all_malformed (st : GameState) (g : Gen) (k : Nat)
    (hstep : st.player.step < MAX_STEPS)
    (hbad : ∀ i, i < 4 → g st.conversation_history (k + i) = .raw none) :
    get_next_scene st g k = (fallback_scene, k + 4) := by
  have h0 := hbad 0 (by omega)
  have h1 := hbad 1 (by omega)
  have h2 := hbad 2 (by omega)
  have h3 := hbad 3 (by omega)
  rw [Nat.add_zero] at h0
  rw [show k + 2 = k + 1 + 1 by omega] at h2
  rw [show k + 3 = k + 1 + 1 + 1 by omega] at h3
  simp only [get_next_scene, if_neg (by omega : ¬ st.player.step ≥ MAX_STEPS)]
  rw [h0]
  simp only [process_scene, MAX_RETRIES, Nat.sub_zero, process_scene_go]
  rw [h1]
  simp only [process_scene_go]
  rw [h2]
  simp only [process_scene_go]
  rw [h3]
  simp only [process_scene_go]

/-- C2 witness: four undecodable payloads from the initial state give
the fallback Scene after exactly 4 generator calls. -/
theorem get_next_scene_all_malformed_witness :
    st0.player.step < MAX_STEPS ∧
    (∀ i, i < 4 → genNone st0.conversation_history (0 + i) = .raw none) ∧
    get_next_scene st0 genNone 0 = (fallback_scene, 0 + 4) :=
  ⟨by decide, fun _ _ => rfl,
    get_next_scene_all_malformed st0 genNone 0 (by decide) (fun _ _ => rfl)⟩

set_option maxRecDepth 100000 in
/-- C3 (code bug): after exhausting retries the fallback terminal Scene
has empty choices, empty effects and fixed flavor text — but the
player's current health (80), gold (7) and inventory (rope) are NOT
embedded in the text: the source builds the story from a plain
triple-quoted string missing the `f` prefix, so the text contains the
literal characters of the placeholders instead of the values. -/
theorem fallback_ending_not_interpolated :
    get_next_scene stC3 genNone 0 = (fallback_scene, 4) ∧
    sceneStory fallback_scene = some fallback_story ∧
    sceneChoices fallback_scene = some [] ∧
    sceneEffects fallback_scene = some [] ∧
    strContains fallback_story "Health: \x7bself.player.health\x7d" = true ∧
    strContains fallback_story "Health: 80" = false ∧
    strContains fallback_story "Gold: 7" = false ∧
    strContains fallback_story "rope" = false :=
  ⟨rfl, rfl, rfl, rfl, by decide, by decide, by decide, by decide⟩

/-- C4 counterexample: the claim as stated is false.  `make_choice` is
not total: on a scene carrying a usable `effects` entry but no
`choices` list, the access `scene["choices"][choice_num - 1]` sits
after the `try/except` block, so the `KeyError` escapes the engine
instead of being converted into a renderable Scene. -/
theorem make_choice_missing_choices_raises :
    make_choice st0 genNone 0 1 scene_no_choices = .error (.keyError "choices") := rfl

/-- C4 (amended): for the failure kinds the engine validates — scene
not a mapping, missing `effects`, missing `effects` entry for the index
— `make_choice` returns a terminal Scene whose message is the
narratively reframed mysterious-force text; but a missing or too-short
`choices` list raises past the engine (see the counterexample), so the
original totality claim fails. -/
theorem make_choice_caught_fault_in_fiction (st : GameState) (g : Gen) (k : Nat) (c : Int)
    (scene : Json) (hstep : st.player.step < MAX_STEPS)
    (hfault : caught_scene_fault scene c = true) :
    ∃ note, make_choice st g k c scene =
        .ok (end_game_scene st.player (mysterious_force_message note), st, k) ∧
      sceneChoices (end_game_scene st.player (mysterious_force_message note)) = some [] := by
  obtain ⟨m, hval⟩ := caught_fault_keyError scene c hfault
  exact ⟨m, make_choice_keyError_eq st g k c scene (by omega) m hval, rfl⟩

/-- C4 witness: the amended theorem applied to a scene whose `effects`
mapping has no entry for the submitted index. -/
theorem make_choice_caught_fault_witness :
    st0.player.step < MAX_STEPS ∧ caught_scene_fault scene_missing_entry 1 = true ∧
    (∃ note, make_choice st0 genNone 0 1 scene_missing_entry =
        .ok (end_game_scene st0.player (mysterious_force_message note), st0, 0) ∧
      sceneChoices (end_game_scene st0.player (mysterious_force_message note)) = some []) :=
  ⟨by decide, rfl,
    make_choice_caught_fault_in_fiction st0 genNone 0 1 scene_missing_entry (by decide) rfl⟩

/-- C5: whenever applying the chosen effect leaves the player's health
at or below 0, the turn loop delivers the terminal death Scene — empty
choices, death message — for every generator, i.e. overriding whatever
Scene the generator produced inside `make_choice`. -/
theorem process_choice_death_overrides (st : GameState) (g : Gen) (k : Nat) (c : Int)
    (scene : Json) (hstep : st.player.step < MAX_STEPS) (hv : validStep scene c = true)
    (hdead : st.player.health + effHealth scene c ≤ 0) :
    process_choice st g k c scene =
      .ok (end_game_scene (postChoiceState st c scene).player death_message,
        postChoiceState st c scene, (get_next_scene (postChoiceState st c scene) g k).2) ∧
    sceneChoices (end_game_scene (postChoiceState st c scene).player death_message) = some [] := by
  have hmc := make_choice_valid st g k c scene hstep hv
  refine ⟨?_, rfl⟩
  simp only [process_choice, hmc]
  have hph : (postChoiceState st c scene).player.health = st.player.health + effHealth scene c := rfl
  rw [if_pos (show (postChoiceState st c scene).player.health ≤ 0 by omega)]
  rfl

/-- C5 witness: a lethal choice (−200 health from 100) forces the death
Scene even though four steps remain. -/
theorem process_choice_death_witness :
    st0.player.step < MAX_STEPS ∧ validStep scene_rope 3 = true ∧
    st0.player.health + effHealth scene_rope 3 ≤ 0 ∧
    (process_choice st0 genNone 0 3 scene_rope =
        .ok (end_game_scene (postChoiceState st0 3 scene_rope).player death_message,
          postChoiceState st0 3 scene_rope,
          (get_next_scene (postChoiceState st0 3 scene_rope) genNone 0).2) ∧
      sceneChoices (end_game_scene (postChoiceState st0 3 scene_rope).player death_message) =
        some []) :=
  ⟨by decide, rfl, by decide,
    process_choice_death_overrides st0 genNone 0 3 scene_rope (by decide) rfl (by decide)⟩

/-- C6: when the prior Scene lacks the `effects` entry for the
submitted index (or `effects` is missing, or the scene is not a
mapping) — the faults caught by the validation block — `make_choice`
returns a terminal Scene with empty choices and the engine state is
returned exactly as it was: health, gold, inventory (and the history
and call counter) are untouched. -/
theorem make_choice_fault_preserves_state (st : GameState) (g : Gen) (k : Nat) (c : Int)
    (scene : Json) (hfault : caught_scene_fault scene c = true) :
    ∃ scene', make_choice st g k c scene = .ok (scene', st, k) ∧ sceneChoices scene' = some [] := by
  by_cases hstep : st.player.step ≥ MAX_STEPS
  · refine ⟨end_game_scene st.player epic_conclusion_message, ?_, rfl⟩
    simp only [make_choice, if_pos hstep]
  · obtain ⟨m, hval⟩ := caught_fault_keyError scene c hfault
    exact ⟨end_game_scene st.player (mysterious_force_message m),
      make_choice_keyError_eq st g k c scene hstep m hval, rfl⟩

/-- C6 witness: a missing `effects` entry against a mid-game state
returns a terminal Scene with the state (health 55, gold 9, lamp)
unchanged. -/
theorem make_choice_fault_preserves_state_witness :
    caught_scene_fault scene_missing_entry 2 = true ∧
    ∃ scene', make_choice stMid genNone 7 2 scene_missing_entry = .ok (scene', stMid, 7) ∧
      sceneChoices scene' = some [] :=
  ⟨rfl, make_choice_fault_preserves_state stMid genNone 7 2 scene_missing_entry rfl⟩

/-- C7: after any sequence of more than 10 recorded messages, the
conversation history has length exactly 10 and its element 0 is the
first message ever recorded (the system prompt recorded by
`initialize_story`): truncation keeps the first entry plus the last 9. -/
theorem history_truncation_invariant (msgs : List (String × String)) (h : 10 < msgs.length) :
    (record_all msgs).length = 10 ∧ (record_all msgs).head? = (msgs.map toMsg).head? := by
  obtain ⟨h1, h2⟩ := record_all_spec msgs
  refine ⟨?_, h2⟩
  rw [h1]
  omega

/-- C7 witness: eleven recorded messages leave a 10-entry history still
headed by the first (system) message. -/
theorem history_truncation_invariant_witness :
    10 < msgs11.length ∧ (record_all msgs11).length = 10 ∧
    (record_all msgs11).head? = some (Msg.mk "system" "prompt") :=
  ⟨by decide, (history_truncation_invariant msgs11 (by decide)).1,
    ((history_truncation_invariant msgs11 (by decide)).2).trans rfl⟩

/-- C8: a transport/API exception on the generation call is caught once
and converted immediately into the terminal unexpected-error Scene: the
counter advances by exactly 1, so no retry happens and the failure never
enters the JSON-repair loop (which is only reached on a decode
failure). -/
theorem transport_error_fails_fast (st : GameState) (g : Gen) (k : Nat) (m : String)
    (hstep : st.player.step < MAX_STEPS) (herr : g st.conversation_history k = .err m) :
    get_next_scene st g k = (end_game_scene st.player unexpected_error_message, k + 1) ∧
    sceneChoices (end_game_scene st.player unexpected_error_message) = some [] := by
  refine ⟨?_, rfl⟩
  simp only [get_next_scene, if_neg (by omega : ¬ st.player.step ≥ MAX_STEPS), herr]

/-- C8 witness: a network failure on the first call produces the
terminal Scene after exactly one generator call. -/
theorem transport_error_fails_fast_witness :
    st0.player.step < MAX_STEPS ∧ genErr st0.conversation_history 0 = .err "network failure" ∧
    (get_next_scene st0 genErr 0 = (end_game_scene st0.player unexpected_error_message, 0 + 1) ∧
      sceneChoices (end_game_scene st0.player unexpected_error_message) = some []) :=
  ⟨by decide, rfl, transport_error_fails_fast st0 genErr 0 "network failure" (by decide) rfl⟩

/-- C9 counterexample: the claim as stated is false.  A payload that
decodes as valid JSON but has none of the Scene fields (`\x7b\x7d`) is
returned as the next Scene immediately — counter `1`, so zero retries —
rather than being retried and degraded to the fallback terminal Scene:
`process_scene` checks only decodability, not the Scene shape. -/
theorem shapeless_json_accepted_without_retry :
    get_next_scene st0 genEmptyObj 0 = (Json.obj [], 1) ∧
    sceneStory (Json.obj []) = none ∧ sceneChoices (Json.obj []) = none ∧
    Json.obj [] ≠ fallback_scene :=
  ⟨rfl, rfl, rfl, by simp [fallback_scene]⟩

/-- C9 (amended): only a payload that fails to decode as JSON is
treated as a malformed-output error and retried; any payload that
decodes is accepted as the next Scene regardless of shape, with shape
faults surfacing only later (e.g. in the `make_choice` validation). -/
theorem decoded_payload_accepted (st : GameState) (g : Gen) (k : Nat) (j : Json)
    (hstep : st.player.step < MAX_STEPS) (hraw : g st.conversation_history k = .raw (some j)) :
    get_next_scene st g k = (j, k + 1) := by
  simp only [get_next_scene, if_neg (by omega : ¬ st.player.step ≥ MAX_STEPS), hraw,
    process_scene, process_scene_go]

/-- C9 witness: the amended theorem applied to the shapeless decoded
payload. -/
theorem decoded_payload_accepted_witness :
    st0.player.step < MAX_STEPS ∧
    genEmptyObj st0.conversation_history 0 = .raw (some (.obj [])) ∧
    get_next_scene st0 genEmptyObj 0 = (Json.obj [], 0 + 1) :=
  ⟨by decide, rfl, decoded_payload_accepted st0 genEmptyObj 0 (Json.obj []) (by decide) rfl⟩

/-- C10: applying choice 1 of `scene_rope` (effect health −20, gold +5,
items [rope]) adds the deltas to health and gold, appends to the
inventory, and increments step by 1, from any state below the step
limit; applying choice 2 (empty effect) changes nothing but the step:
absent effect fields default to no change. -/
theorem effect_application_deltas (st : GameState) (g : Gen) (k : Nat)
    (hstep : st.player.step < MAX_STEPS) :
    (make_choice st g k 1 scene_rope).map (fun r => r.2.1.player) =
      .ok ⟨st.player.health + (-20), st.player.gold + 5, st.player.inventory ++ ["rope"],
        st.player.step + 1⟩ ∧
    (make_choice st g k 2 scene_rope).map (fun r => r.2.1.player) =
      .ok ⟨st.player.health, st.player.gold, st.player.inventory, st.player.step + 1⟩ := by
  constructor
  · have hmc := make_choice_valid st g k 1 scene_rope hstep rfl
    rw [hmc]
    rfl
  · have hmc := make_choice_valid st g k 2 scene_rope hstep rfl
    rw [hmc]
    show Except.ok (⟨st.player.health + 0, st.player.gold + 0, st.player.inventory ++ [],
      st.player.step + 1⟩ : PlayerState) = _
    simp

/-- C10 witness: the spec's worked example — starting state
(100, 0, []), effect (−20, +5, [rope]) — yields (80, 5, [rope]) with
step 1, and the empty effect yields (100, 0, []) with step 1. -/
theorem effect_application_deltas_witness :
    st0.player.step < MAX_STEPS ∧
    (make_choice st0 genNone 0 1 scene_rope).map (fun r => r.2.1.player) =
      .ok ⟨80, 5, ["rope"], 1⟩ ∧
    (make_choice st0 genNone 0 2 scene_rope).map (fun r => r.2.1.player) =
      .ok ⟨100, 0, [], 1⟩ :=
  ⟨by decide, (effect_application_deltas st0 genNone 0 (by decide)).1,
    (effect_application_deltas st0 genNone 0 (by decide)).2⟩

end AdventureQuest
